import Mathlib

/-!
Verification of the event-deduplication and code/state synchronization core of
the Streamlit mini-notebook (src/streamlit_notebook/notebook_imports.py).

The embedding models:
- `editor_output_parser` (the Event Deduplicator): state `ParserState` with
  fields `last_id`, `last_code`; `parser_call` is the `__call__` method, taking
  the state and the (optional) editor payload and returning the `(event, text)`
  pair together with the updated state.
- `Code` (the Value Synchronizer): fields `_value`, `new_code_flag`; operations
  `get_value`, `from_ui`, `from_backend`.
- `Editor.show`: the orchestration that feeds the payload through the parser
  and then through `Code.from_ui`.

Payload fields follow Python `dict.get` semantics: `Option`-valued, where
`none` means the field is missing (or `None`), mirroring what
`output.get(key)` observes. Ids are modelled as a sum of strings and integers
so that the Python-falsy-but-present values `""` and `0` are representable and
distinct from a missing field.
-/

namespace MiniNotebook

/-- An identifier value that the editor widget may place in the payload's
`id` field. Strings and integers cover the widget's actual tokens as well as
the spec's falsy edge values `""` and `0`. -/
inductive Ident where
  | str (s : String)
  | int (n : Int)
  deriving DecidableEq, Repr

/-- Python truthiness of an identifier value: the empty string and the
integer zero are falsy, everything else is truthy. -/
def Ident.truthy : Ident → Bool
  | Ident.str s => s ≠ ""
  | Ident.int n => n ≠ 0

/-- The optional record delivered by the code-editor widget, as observed
through `output.get("id")`, `output.get("type", "")` and
`output.get("text", ...)`: each field is `none` when missing. -/
structure EditorPayload where
  id : Option Ident
  type : Option String
  text : Option String
  deriving DecidableEq, Repr

/-- State of `editor_output_parser`: `last_id` (initially `None`) and
`last_code` (initially the constructor's `initial_code`). -/
structure ParserState where
  last_id : Option Ident
  last_code : String
  deriving DecidableEq, Repr

/-- `editor_output_parser.__init__`: `last_id = None`,
`last_code = initial_code`. -/
def parser_init (initial_code : String) : ParserState :=
  { last_id := none, last_code := initial_code }

/-- `editor_output_parser.__call__`. Given the current state and the widget
output (possibly `None`), returns the `(event, text)` pair and the updated
state, following the source line by line:
- `output is None` short-circuits to `(None, last_code)` with no state change;
- otherwise `last_code` is set to `output.get("text", last_code)`;
- `event` is `output.get("type", "")` when `output.get("id")` is not `None`,
  differs from `last_id`, and the type string is truthy (non-empty); in that
  id-changed branch `last_id` is set to the new id. -/
def parser_call (st : ParserState) (output : Option EditorPayload) :
    (Option String × String) × ParserState :=
  match output with
  | none => ((none, st.last_code), st)
  | some out =>
      let lastCode : String := out.text.getD st.last_code
      let outId : Option Ident := out.id
      let outType : String := out.type.getD ""
      if outId.isSome ∧ outId ≠ st.last_id then
        let event : Option String := if outType ≠ "" then some outType else none
        ((event, lastCode), { last_id := outId, last_code := lastCode })
      else
        ((none, lastCode), { st with last_code := lastCode })

/-- The `Code` value synchronizer: wraps a string `_value` together with the
`new_code_flag` that suppresses one stale UI echo after a backend write. -/
structure Code where
  _value : String
  new_code_flag : Bool
  deriving DecidableEq, Repr

/-- `Code.__init__`: stores the value with the flag cleared. -/
def Code.init (value : String) : Code :=
  { _value := value, new_code_flag := false }

/-- `Code.get_value`. -/
def Code.get_value (c : Code) : String :=
  c._value

/-- `Code.from_ui`: if the backend just wrote a value (`new_code_flag`),
clear the flag and discard this UI-supplied value; otherwise store it. -/
def Code.from_ui (c : Code) (value : String) : Code :=
  if c.new_code_flag then
    { c with new_code_flag := false }
  else
    { c with _value := value }

/-- `Code.from_backend`: unconditionally store the value and raise the
flag. -/
def Code.from_backend (c : Code) (value : String) : Code :=
  { _value := value, new_code_flag := true }

/-- The `Editor` wrapper state relevant to its logic: the `Code` object, the
last observed event, and the parser's state. (`key`, `lang` and the height
settings only feed the rendering widget and carry no logic.) -/
structure Editor where
  code : Code
  event : Option String
  parser : ParserState
  deriving DecidableEq, Repr

/-- `Editor.__init__` with a given `Code` object: no event yet, parser seeded
with the code's current value. -/
def Editor.init (code : Code) : Editor :=
  { code := code, event := none, parser := parser_init code.get_value }

/-- `Editor.get_output`: prefer the component's entry in `st.session_state`
(modelled as `sessionVal`, `some v` when `self.key in state` with stored
payload `v`) over the raw return value of the widget call. -/
def Editor.get_output (sessionVal : Option (Option EditorPayload))
    (output : Option EditorPayload) : Option EditorPayload :=
  match sessionVal with
  | some v => v
  | none => output

/-- `Editor.show`: run the widget (its return value `raw_output` and the
session-state entry `sessionVal` are the external inputs), resolve the
payload via `get_output`, feed it to the parser, push the resulting text
through `Code.from_ui`, and record the event. -/
def Editor.show (e : Editor) (raw_output : Option EditorPayload)
    (sessionVal : Option (Option EditorPayload)) : Editor :=
  let output := Editor.get_output sessionVal raw_output
  let r := parser_call e.parser output
  { code := e.code.from_ui r.1.2, event := r.1.1, parser := r.2 }

/-! ## Helper lemmas -/

/-- Closed form of `parser_call` on a present payload: the two branches of the
id-change test, with `last_code` updated in both. -/
theorem parser_call_some_eq (st : ParserState) (p : EditorPayload) :
    parser_call st (some p) =
      if p.id.isSome ∧ p.id ≠ st.last_id then
        ((if p.type.getD "" ≠ "" then some (p.type.getD "") else none,
          p.text.getD st.last_code),
         { last_id := p.id, last_code := p.text.getD st.last_code })
      else
        ((none, p.text.getD st.last_code),
         { last_id := st.last_id, last_code := p.text.getD st.last_code }) :=
  rfl

/-- `Option.getD` is idempotent in its default argument. -/
theorem getD_getD (o : Option String) (d : String) :
    o.getD (o.getD d) = o.getD d := by
  cases o <;> rfl

/-- `Code.from_ui` always leaves the flag cleared. -/
theorem from_ui_flag_false (c : Code) (v : String) :
    (c.from_ui v).new_code_flag = false := by
  cases hc : c.new_code_flag <;> simp [Code.from_ui, hc]

/-! ## Claim theorems -/

/-- C1: for every payload with a present id differing from the stored
`last_id` and a non-empty `type` string, `process` returns the type as the
event; delivering the identical payload again immediately returns no event
with the same text, so the event fires exactly once across repeated
identical deliveries. -/
theorem parser_event_fires_exactly_once (st : ParserState) (p : EditorPayload)
    (ty : String) (hid : p.id.isSome) (hne : p.id ≠ st.last_id)
    (hty : p.type = some ty) (htyne : ty ≠ "") :
    (parser_call st (some p)).1.1 = some ty ∧
    (parser_call (parser_call st (some p)).2 (some p)).1.1 = none ∧
    (parser_call (parser_call st (some p)).2 (some p)).1.2 =
      (parser_call st (some p)).1.2 := by
  have hcond : p.id.isSome ∧ p.id ≠ st.last_id := ⟨hid, hne⟩
  have h1 : parser_call st (some p) =
      ((some ty, p.text.getD st.last_code),
       { last_id := p.id, last_code := p.text.getD st.last_code }) := by
    rw [parser_call_some_eq, if_pos hcond, hty]
    simp [htyne]
  have hcond2 : ¬((p.id.isSome : Prop) ∧
      p.id ≠ (ParserState.mk p.id (p.text.getD st.last_code)).last_id) := by
    simp
  have h2 : parser_call
      { last_id := p.id, last_code := p.text.getD st.last_code } (some p) =
      ((none, p.text.getD st.last_code),
       { last_id := p.id, last_code := p.text.getD st.last_code }) := by
    rw [parser_call_some_eq, if_neg hcond2]
    simp [getD_getD]
  refine ⟨?_, ?_, ?_⟩ <;> simp [h1, h2]

/-- C1 witness: the scenario `process({id:"a1", type:"run", text:"print(1)"})`
on a fresh parser fires `"run"`, and the immediate identical redelivery
fires nothing while keeping the text. -/
theorem parser_event_fires_exactly_once_witness :
    (⟨some (Ident.str "a1"), some "run", some "print(1)"⟩ :
        EditorPayload).id.isSome = true ∧
    ((parser_call (parser_init "")
        (some ⟨some (Ident.str "a1"), some "run", some "print(1)"⟩)).1.1 =
          some "run" ∧
      (parser_call (parser_call (parser_init "")
          (some ⟨some (Ident.str "a1"), some "run", some "print(1)"⟩)).2
          (some ⟨some (Ident.str "a1"), some "run", some "print(1)"⟩)).1.1 =
        none ∧
      (parser_call (parser_call (parser_init "")
          (some ⟨some (Ident.str "a1"), some "run", some "print(1)"⟩)).2
          (some ⟨some (Ident.str "a1"), some "run", some "print(1)"⟩)).1.2 =
        (parser_call (parser_init "")
          (some ⟨some (Ident.str "a1"), some "run", some "print(1)"⟩)).1.2) :=
  ⟨rfl, parser_event_fires_exactly_once (parser_init "")
    ⟨some (Ident.str "a1"), some "run", some "print(1)"⟩ "run"
    rfl (by decide) rfl (by decide)⟩

/-- C2: backend writes are suppressed against exactly one stale UI echo:
after `from_backend x`, the next `from_ui y` keeps the value `x` and clears
the flag, and the following `from_ui z` stores `z`; and whenever the flag is
set, the next UI write is discarded and afterwards the flag is clear. -/
theorem code_backend_write_suppresses_one_echo (c c2 : Code) (x y z : String)
    (hc2 : c2.new_code_flag = true) :
    ((c.from_backend x).from_ui y).get_value = x ∧
    ((c.from_backend x).from_ui y).new_code_flag = false ∧
    (((c.from_backend x).from_ui y).from_ui z).get_value = z ∧
    (c2.from_ui y).get_value = c2.get_value ∧
    (c2.from_ui y).new_code_flag = false := by
  simp [Code.from_backend, Code.from_ui, Code.get_value, hc2]

/-- C2 witness: the spec scenario with `"X"`, `"Y"`, `"Z"` starting from an
empty `Code`, and the flag invariant checked on a `Code` whose flag is set. -/
theorem code_backend_write_suppresses_one_echo_witness :
    ((Code.init "").from_backend "X").new_code_flag = true ∧
    ((((Code.init "").from_backend "X").from_ui "Y").get_value = "X" ∧
     (((Code.init "").from_backend "X").from_ui "Y").new_code_flag = false ∧
     ((((Code.init "").from_backend "X").from_ui "Y").from_ui "Z").get_value =
       "Z" ∧
     (((Code.init "").from_backend "X").from_ui "Y").get_value =
       ((Code.init "").from_backend "X").get_value ∧
     (((Code.init "").from_backend "X").from_ui "Y").new_code_flag = false) :=
  ⟨rfl, code_backend_write_suppresses_one_echo (Code.init "")
    ((Code.init "").from_backend "X") "X" "Y" "Z" rfl⟩

/-- C3: an id that is present but Python-falsy (empty string, integer zero)
is still treated as present: if it differs from `last_id` and the type is a
non-empty string, the event fires. -/
theorem parser_falsy_id_still_fires (st : ParserState) (p : EditorPayload)
    (i : Ident) (ty : String) (hid : p.id = some i) (hfalsy : i.truthy = false)
    (hne : p.id ≠ st.last_id) (hty : p.type = some ty) (htyne : ty ≠ "") :
    (parser_call st (some p)).1.1 = some ty := by
  have hcond : p.id.isSome ∧ p.id ≠ st.last_id := ⟨by simp [hid], hne⟩
  rw [parser_call_some_eq, if_pos hcond, hty]
  simp [htyne]

/-- C3 witness: an empty-string id on a fresh parser still fires `"run"`. -/
theorem parser_falsy_id_still_fires_witness :
    ((⟨some (Ident.str ""), some "run", some "pass"⟩ : EditorPayload).id =
        some (Ident.str "") ∧
      (Ident.str "").truthy = false ∧ ("run" : String) ≠ "") ∧
    (parser_call (parser_init "seed")
      (some ⟨some (Ident.str ""), some "run", some "pass"⟩)).1.1 =
      some "run" :=
  ⟨⟨rfl, by decide, by decide⟩,
    parser_falsy_id_still_fires (parser_init "seed")
      ⟨some (Ident.str ""), some "run", some "pass"⟩ (Ident.str "") "run"
      rfl (by decide) (by decide) rfl (by decide)⟩

/-- C4: processing an absent payload is a no-op: it returns
`(none, last_code)` and leaves the parser state unchanged. -/
theorem parser_absent_payload_noop (st : ParserState) :
    parser_call st none = ((none, st.last_code), st) :=
  rfl

/-- C5: for every present payload, `last_code` becomes `payload.text` when
the text field is present and stays unchanged when it is absent
(`Option.getD` expresses exactly this), in state and return value alike,
regardless of whether an event fires. -/
theorem parser_text_update_unconditional (st : ParserState)
    (p : EditorPayload) :
    (parser_call st (some p)).2.last_code = p.text.getD st.last_code ∧
    (parser_call st (some p)).1.2 = p.text.getD st.last_code := by
  rw [parser_call_some_eq]
  split <;> exact ⟨rfl, rfl⟩

/-- C6: `last_id` changes exactly when a present id differing from the stored
one is observed (in which case it becomes that id); absent payloads, missing
id fields and repeated ids leave it unchanged. -/
theorem parser_last_id_update_condition (st : ParserState) :
    (parser_call st none).2.last_id = st.last_id ∧
    ∀ p : EditorPayload, (parser_call st (some p)).2.last_id =
      if p.id.isSome ∧ p.id ≠ st.last_id then p.id else st.last_id := by
  constructor
  · rfl
  · intro p
    rw [parser_call_some_eq]
    by_cases h : (p.id.isSome : Prop) ∧ p.id ≠ st.last_id
    · rw [if_pos h, if_pos h]
    · rw [if_neg h, if_neg h]

/-- C7: the event value is the payload's type string passed through
unmodified — any non-empty string, also outside the fixed set
`{"run", "submit"}`, is returned verbatim when the id is fresh. -/
theorem parser_event_passthrough (st : ParserState) (p : EditorPayload)
    (ty : String) (hid : p.id.isSome) (hne : p.id ≠ st.last_id)
    (hty : p.type = some ty) (htyne : ty ≠ "") :
    (parser_call st (some p)).1.1 = some ty := by
  rw [parser_call_some_eq, if_pos ⟨hid, hne⟩, hty]
  simp [htyne]

/-- C7 witness: the application-specific type `"custom-action"` is returned
verbatim. -/
theorem parser_event_passthrough_witness :
    ((⟨some (Ident.int 7), some "custom-action", none⟩ :
        EditorPayload).id.isSome = true ∧ ("custom-action" : String) ≠ "") ∧
    (parser_call (parser_init "code")
      (some ⟨some (Ident.int 7), some "custom-action", none⟩)).1.1 =
      some "custom-action" :=
  ⟨⟨rfl, by decide⟩,
    parser_event_passthrough (parser_init "code")
      ⟨some (Ident.int 7), some "custom-action", none⟩ "custom-action"
      rfl (by decide) rfl (by decide)⟩

/-- C8: both components are total state-transition functions: `parser_call`
returns a `(event, text)` pair with a new state for every input shape, a
missing id field yields no event, a missing text field leaves the text
unchanged, and the `Code` operations return for every string and state. -/
theorem components_never_raise (st : ParserState) (out : Option EditorPayload)
    (oid : Option Ident) (oty otx : Option String) (c : Code) (v : String) :
    (∃ ev txt st2, parser_call st out = ((ev, txt), st2)) ∧
    (parser_call st (some ⟨none, oty, otx⟩)).1.1 = none ∧
    (parser_call st (some ⟨oid, oty, none⟩)).1.2 = st.last_code ∧
    (∃ c2, c.from_ui v = c2) ∧
    (∃ c3, c.from_backend v = c3) ∧
    (∃ s, c.get_value = s) := by
  refine ⟨⟨_, _, _, rfl⟩, ?_, ?_, ⟨_, rfl⟩, ⟨_, rfl⟩, ⟨_, rfl⟩⟩
  · simp [parser_call_some_eq]
  · rw [parser_call_some_eq]
    split <;> rfl

/-- C9: a freshly constructed parser has `last_id = none`, so the first
present payload carrying any id and a non-empty type always fires that type
as the event. -/
theorem parser_first_observation_fires (initial_code : String)
    (p : EditorPayload) (i : Ident) (ty : String) (hid : p.id = some i)
    (hty : p.type = some ty) (htyne : ty ≠ "") :
    (parser_call (parser_init initial_code) (some p)).1.1 = some ty := by
  have hcond : p.id.isSome ∧ p.id ≠ (parser_init initial_code).last_id := by
    constructor
    · simp [hid]
    · simp [hid, parser_init]
  rw [parser_call_some_eq, if_pos hcond, hty]
  simp [htyne]

/-- C9 witness: a stale pre-construction id `"old"` with type `"submit"`
fires on the very first observation. -/
theorem parser_first_observation_fires_witness :
    ((⟨some (Ident.str "old"), some "submit", some "text"⟩ :
        EditorPayload).id = some (Ident.str "old") ∧
      ("submit" : String) ≠ "") ∧
    (parser_call (parser_init "init")
      (some ⟨some (Ident.str "old"), some "submit", some "text"⟩)).1.1 =
      some "submit" :=
  ⟨⟨rfl, by decide⟩,
    parser_first_observation_fires "init"
      ⟨some (Ident.str "old"), some "submit", some "text"⟩ (Ident.str "old")
      "submit" rfl rfl (by decide)⟩

/-- C10: after every `from_ui` call the flag is false, whatever the prior
state; since `Editor.show` ends by calling `from_ui`, the flag is false after
every `show`, for every external input. -/
theorem show_always_clears_flag (c : Code) (v : String) (e : Editor)
    (raw : Option EditorPayload) (sv : Option (Option EditorPayload)) :
    (c.from_ui v).new_code_flag = false ∧
    (Editor.show e raw sv).code.new_code_flag = false :=
  ⟨from_ui_flag_false c v, from_ui_flag_false e.code _⟩

end MiniNotebook
